import Mathlib

/-!
# Verification of the image-metadata extraction pipeline (`main.py`)

Shallow embedding of the pure core of the AstrBot image-metadata plugin:
the Exif tag decoder (`_safe_get_exif_value`), the GPS degree/minute/second
converter (`_convert_exif_gps`), the GPS extractor (`_parse_gps_exifread`),
the metadata assembler (`_parse_image_meta`), the reverse-geocoding resolver
(`_gps_to_address`) and the reply builder (`process_metadata_analysis`).

Python floats are modelled as rationals (`ℚ`); `round(x, n)` is modelled by
round-half-to-even on `x * 10^n` (CPython's rounding mode for `round`).
Python strings are Lean `String`s (both count Unicode scalar values, so
`len`/slicing agree).  External effects (the file system, `exifread`, the
HTTP client) are modelled as explicit inputs describing their outcome.
-/

namespace ImgAnalysis

/-! ## Python string primitives -/

/-- The character list of a Python slice `s[:n]`. -/
def pyTake (s : String) (n : Nat) : String :=
  String.mk (s.toList.take n)

/-- Strip of leading whitespace, as in Python's `str.strip()` (we use
Lean's `Char.isWhitespace`, which agrees with Python on the ASCII
whitespace that can occur in Exif text). -/
def stripChars (l : List Char) : List Char :=
  ((l.dropWhile Char.isWhitespace).reverse.dropWhile Char.isWhitespace).reverse

/-- Python's `str.strip()`. -/
def pyStrip (s : String) : String :=
  String.mk (stripChars s.toList)

/-- The decimal digit character for `k < 10` (`'0'` + k). -/
def digitChar (k : Nat) : Char := Char.ofNat (48 + k)

/-- Big-endian decimal digit characters of `n`, fuel-based so that the
kernel can evaluate it (`fuel = n` always suffices). -/
def natDigitsAux : Nat → Nat → List Char → List Char
  | 0, _, acc => acc
  | f + 1, n, acc =>
    if n = 0 then acc else natDigitsAux f (n / 10) (digitChar (n % 10) :: acc)

/-- The decimal digit characters of `n`, i.e. Python's `str(n)` for a
nonnegative integer. -/
def natDigits (n : Nat) : List Char :=
  if n = 0 then ['0'] else natDigitsAux n n []

/-- Python's `str` on an `int`. -/
def intChars (n : Int) : List Char :=
  if n < 0 then '-' :: natDigits n.natAbs else natDigits n.natAbs

/-- Numeric value of a big-endian decimal digit string. -/
def digitsToNat (l : List Char) : Nat :=
  l.foldl (fun a c => a * 10 + (c.toNat - 48)) 0

/-- Split a character list at `'.'` characters (Python `s.split('.')`,
restricted to what `float()` parsing needs). -/
def splitDots (l : List Char) : List (List Char) :=
  l.foldr
    (fun c acc =>
      if c = '.' then [] :: acc
      else
        match acc with
        | h :: t => (c :: h) :: t
        | [] => [[c]])
    [[]]

/-- Python's `s.replace('.', '').isdigit()` (the guard used by
`_convert_exif_gps` before calling `float`).  We model `isdigit` on the
ASCII digits; exotic Unicode digit characters do not occur in Exif GPS
rationals. -/
def pyDigitCheck (s : String) : Bool :=
  let t := s.toList.filter (fun c => c ≠ '.')
  !t.isEmpty && t.all (fun c => c.isDigit)

/-- Python's `float(s)` on strings that passed `pyDigitCheck` (digits and
dots only): `none` models a raised `ValueError` (more than one dot). -/
def pyFloat (s : String) : Option ℚ :=
  match splitDots s.toList with
  | [ip] => some ((digitsToNat ip : ℚ))
  | [ip, fp] => some ((digitsToNat ip : ℚ) + (digitsToNat fp : ℚ) / (10 : ℚ) ^ fp.length)
  | _ => none

/-- `float(x) if x.replace('.', '').isdigit() else 0.0` — the resolution of
one GPS component string to a float in `_convert_exif_gps`; `none` models a
raised exception. -/
def compVal (s : String) : Option ℚ :=
  if pyDigitCheck s then pyFloat s else some 0

/-! ## Python `round` (round half to even) -/

/-- Round a rational to the nearest integer, ties to even — the rounding
CPython's `round` uses. -/
def roundHalfEven (q : ℚ) : Int :=
  if Int.fract q < 1/2 then ⌊q⌋
  else if 1/2 < Int.fract q then ⌊q⌋ + 1
  else if ⌊q⌋ % 2 = 0 then ⌊q⌋ else ⌊q⌋ + 1

/-- Python's `round(q, n)` on our rational model of floats. -/
def pyRound (n : Nat) (q : ℚ) : ℚ :=
  (roundHalfEven (q * 10 ^ n) : ℚ) / 10 ^ n

/-! ## UTF-8 decoding with `errors='ignore'`

`bytes.decode('utf-8', errors='ignore')` decodes well-formed UTF-8
sequences and silently drops bytes belonging to ill-formed ones.  It never
raises.  We implement the decoder with explicit fuel (one byte of fuel per
input byte suffices, since every step consumes at least one byte). -/

/-- Is `b` a UTF-8 continuation byte (`0x80–0xBF`)? -/
def isCont (b : Nat) : Bool := 0x80 ≤ b && b ≤ 0xBF

/-- Valid second byte for a three-byte sequence with lead `b1`
(excluding overlong forms and surrogates, which CPython rejects). -/
def valid3Snd (b1 b2 : Nat) : Bool :=
  if b1 = 0xE0 then 0xA0 ≤ b2 && b2 ≤ 0xBF
  else if b1 = 0xED then 0x80 ≤ b2 && b2 ≤ 0x9F
  else isCont b2

/-- Valid second byte for a four-byte sequence with lead `b1`
(excluding overlong forms and values above `U+10FFFF`). -/
def valid4Snd (b1 b2 : Nat) : Bool :=
  if b1 = 0xF0 then 0x90 ≤ b2 && b2 ≤ 0xBF
  else if b1 = 0xF4 then 0x80 ≤ b2 && b2 ≤ 0x8F
  else isCont b2

/-- Fuel-driven UTF-8 decode loop, dropping ill-formed subsequences the way
CPython's `errors='ignore'` handler does (an invalid byte is skipped; a
valid prefix of an incomplete sequence is consumed as one error). -/
def utf8Go : Nat → List Nat → List Char
  | 0, _ => []
  | _ + 1, [] => []
  | f + 1, b :: rest =>
    if b < 0x80 then Char.ofNat b :: utf8Go f rest
    else if 0xC2 ≤ b && b ≤ 0xDF then
      match rest with
      | b2 :: rest2 =>
        if isCont b2 then Char.ofNat ((b - 0xC0) * 64 + (b2 - 0x80)) :: utf8Go f rest2
        else utf8Go f rest
      | [] => []
    else if 0xE0 ≤ b && b ≤ 0xEF then
      match rest with
      | b2 :: b3 :: rest3 =>
        if valid3Snd b b2 then
          if isCont b3 then
            Char.ofNat ((b - 0xE0) * 4096 + (b2 - 0x80) * 64 + (b3 - 0x80)) :: utf8Go f rest3
          else utf8Go f (b3 :: rest3)
        else utf8Go f rest
      | [_] => []
      | [] => []
    else if 0xF0 ≤ b && b ≤ 0xF4 then
      match rest with
      | b2 :: b3 :: b4 :: rest4 =>
        if valid4Snd b b2 then
          if isCont b3 then
            if isCont b4 then
              Char.ofNat ((b - 0xF0) * 262144 + (b2 - 0x80) * 4096 + (b3 - 0x80) * 64
                + (b4 - 0x80)) :: utf8Go f rest4
            else utf8Go f (b4 :: rest4)
          else utf8Go f (b3 :: b4 :: rest4)
        else utf8Go f rest
      | _ => []
    else utf8Go f rest

/-- `bytes.decode('utf-8', errors='ignore')` — total, never raises. -/
def utf8DecodeIgnore (bs : List Nat) : String :=
  String.mk (utf8Go bs.length bs)

/-! ## The value model

`PyVal` models the Python values `_safe_get_exif_value` can receive from
`exifread`: byte strings, text strings, rational values (`exifread.Ratio`,
a reduced fraction), `IfdTag` objects (anything with a `.values`
attribute), and lists thereof. -/

inductive PyVal where
  /-- A `bytes` object (sequence of octets). -/
  | pyBytes (bs : List Nat)
  /-- A `str` object. -/
  | pyStr (s : String)
  /-- An `exifread.Ratio` (a `fractions.Fraction` subclass, so stored in
  lowest terms); `str` shows `"num/den"`, or just `"num"` when `den = 1`. -/
  | pyRatio (num den : Int)
  /-- An object carrying a `.values` attribute (`exifread.IfdTag`). -/
  | pyTag (values : PyVal)
  /-- A `list` object. -/
  | pyList (l : List PyVal)

/-- Python's `str()` on the values above.  The `pyBytes`/`pyTag`/`pyList`
renderings model `repr`-style fallbacks that the plugin never reaches for
well-typed tags (bytes are intercepted before `str` is applied, and
coordinate components are numbers); they are placeholders at the modelling
boundary of the Python builtins, not translations of repository code. -/
def pythonStr : PyVal → String
  | .pyStr s => s
  | .pyRatio n d =>
    if d = 1 then String.mk (intChars n) else String.mk (intChars n ++ '/' :: intChars d)
  | .pyBytes _ => "<bytes>"
  | .pyTag _ => "<IfdTag>"
  | .pyList _ => "<list>"

/-- `_safe_get_exif_value` (main.py lines 71–104).  The outer
`try/except` is unreachable for the value shapes above (every branch is
total), and `bytes.decode('utf-8', errors='ignore')` never raises, so the
GBK fallback and the `"[二进制数据] 长度: …"` placeholder are dead code and
do not appear in the translation's reachable branches. -/
def safe_get_exif_value (tag_value : PyVal) : String :=
  match tag_value with
  | .pyBytes bs => pyStrip (utf8DecodeIgnore bs)
  | .pyTag v =>
    match v with
    | .pyList l =>
      String.intercalate ", "
        (l.map fun x =>
          match x with
          | .pyBytes bs => pyStrip (utf8DecodeIgnore bs)
          | _ => pythonStr x)
    | _ => pyStrip (pythonStr v)
  | v => pyStrip (pythonStr v)

/-! ## Rendering floats in f-strings

Python renders a float with `repr`, the shortest decimal that round-trips.
Every float the plugin interpolates is either an integer-valued float or a
result of `round(_, n)`, whose exact value has a finite decimal expansion
that `repr` prints literally (minus trailing zeros), which is what
`decimalChars` produces.  Values without a finite decimal expansion cannot
be represented exactly anyway; for them we fall back to a `num/den`
rendering (never reached by the plugin's interpolations). -/

/-- Decimal rendering of a non-integral rational (fractional digits
trimmed of trailing zeros), used for `f"{float}"`. -/
def decimalChars (q : ℚ) : List Char :=
  let sign : List Char := if q.num < 0 then ['-'] else []
  let a := q.num.natAbs
  let ip := a / q.den
  let rem := a % q.den
  match (List.range 31).find? (fun k => (10 ^ k) % q.den = 0) with
  | some k =>
    let frDigits := natDigits (rem * (10 ^ k / q.den))
    let padded := List.replicate (k - frDigits.length) '0' ++ frDigits
    let trimmed := (padded.reverse.dropWhile (fun c => c = '0')).reverse
    let fr := if trimmed.isEmpty then ['0'] else trimmed
    sign ++ natDigits ip ++ '.' :: fr
  | none => sign ++ natDigits a ++ '/' :: natDigits q.den

/-- Python's `f"{x}"` for a float `x` (modelled as `ℚ`). -/
def pyFloatStr (q : ℚ) : String :=
  if q.den = 1 then String.mk (intChars q.num ++ ['.', '0']) else String.mk (decimalChars q)

/-! ## `_convert_exif_gps` (main.py lines 106–127) -/

/-- `_convert_exif_gps(gps_coords, ref)`: reads `gps_coords.values[0..2]`
(so the argument must be a tag whose `.values` is a list of length ≥ 3 —
any other shape raises inside the `try`, landing in the `except` branch
that returns `0.0`), resolves each component through
`_safe_get_exif_value` and the digit-check/`float` guard, applies
`deg + min/60 + sec/3600`, negates for `S`/`W`, and rounds to 6 places.
A `none` from `compVal` models a raised `ValueError` from `float`, also
landing in the `except` branch. -/
def convert_exif_gps (gps_coords : PyVal) (ref : String) : ℚ :=
  match gps_coords with
  | .pyTag (.pyList (a :: b :: c :: _)) =>
    match compVal (safe_get_exif_value a), compVal (safe_get_exif_value b),
        compVal (safe_get_exif_value c) with
    | some deg, some min_v, some sec_v =>
      let obj := deg + min_v / 60 + sec_v / 3600
      let obj := if ref = "S" ∨ ref = "W" then -obj else obj
      pyRound 6 obj
    | _, _, _ => 0
  | _ => 0

/-! ## `_parse_gps_exifread` (main.py lines 129–163)

Exif tag collections are modelled as association lists from tag names to
values; tag names are kept as character lists so that the source's
character-level operations (`startswith('GPS')`, `replace(' ', '_')`) are
stated directly.  The `except` branch of `_parse_gps_exifread` is
unreachable: every operation in its `try` block is total (`dict.get`,
attribute checks, and the already-guarded helpers). -/

/-- A decoded tag collection (`exifread.process_file` result): an ordered
mapping from tag name to tag object. -/
abbrev Tags := List (List Char × PyVal)

/-- Python `exif_tags.get(name)`. -/
def tagsGet (tags : Tags) (name : List Char) : Option PyVal :=
  (List.find? (fun p => p.1 == name) tags).map (fun p => p.2)

/-- `tag and hasattr(tag, 'values')`: the tag is present and is an object
with a `.values` attribute (an `IfdTag`; such objects are always truthy). -/
def hasValuesTag : Option PyVal → Bool
  | some (.pyTag _) => true
  | _ => false

/-- The `.values` attribute of a present tag (callers check
`hasValuesTag` first; the default is unreachable). -/
def tagValues : Option PyVal → PyVal
  | some (.pyTag v) => v
  | _ => .pyStr ""

/-- The tag object itself (unwrap of a checked `dict.get` result). -/
def tagObj : Option PyVal → PyVal
  | some v => v
  | none => .pyStr ""

/-- `_parse_gps_exifread(exif_tags) -> (lat, lon, gps_str)`. -/
def parse_gps_exifread (tags : Tags) : Option ℚ × Option ℚ × String :=
  let gps_lat := tagsGet tags "GPS GPSLatitude".toList
  let gps_lat_ref := tagsGet tags "GPS GPSLatitudeRef".toList
  let gps_lon := tagsGet tags "GPS GPSLongitude".toList
  let gps_lon_ref := tagsGet tags "GPS GPSLongitudeRef".toList
  if hasValuesTag gps_lat && hasValuesTag gps_lat_ref && hasValuesTag gps_lon
      && hasValuesTag gps_lon_ref then
    let lat_ref := safe_get_exif_value (tagValues gps_lat_ref)
    let lon_ref := safe_get_exif_value (tagValues gps_lon_ref)
    let lat := convert_exif_gps (tagObj gps_lat) lat_ref
    let lon := convert_exif_gps (tagObj gps_lon) lon_ref
    if lat = 0 ∧ lon = 0 then (some lat, some lon, "GPS坐标无效（值为0）")
    else
      (some lat, some lon,
        "纬度：" ++ pyFloatStr lat ++ "° " ++ lat_ref ++ "，经度：" ++ pyFloatStr lon
          ++ "° " ++ lon_ref)
  else (none, none, "无GPS信息")

/-! ## The Exif dictionary loop of `_parse_image_meta` (lines 256–270) -/

/-- `tag.replace(' ', '_')` on a tag name. -/
def replaceSpaces (l : List Char) : List Char :=
  l.map fun c => if c = ' ' then '_' else c

/-- `tag.startswith('GPS')`. -/
def startsWithGPS : List Char → Bool
  | a :: b :: c :: _ => a == 'G' && b == 'P' && c == 'S'
  | _ => false

/-- Assignment `d[k] = v` on a Python dict modelled as an ordered
association list: overwrite in place if the key exists, else append. -/
def dictInsert (d : List (List Char × String)) (k : List Char) (v : String) :
    List (List Char × String) :=
  if d.any (fun p => p.1 == k) then d.map (fun p => if p.1 == k then (k, v) else p)
  else d ++ [(k, v)]

/-- One iteration of the `for tag, value in exif_tags.items()` loop. -/
def exifStep (d : List (List Char × String)) (tag : List Char) (value : PyVal) :
    List (List Char × String) :=
  if startsWithGPS tag then d
  else
    let val_str := safe_get_exif_value value
    if val_str ≠ "" ∧ val_str ≠ "None" ∧ val_str.length < 200 then
      dictInsert d (replaceSpaces tag) val_str
    else d

/-- The whole loop: build `exif_dict` from the decoded tag collection. -/
def exifDict (tags : Tags) : List (List Char × String) :=
  tags.foldl (fun d p => exifStep d p.1 p.2) []

/-! ## `_parse_image_meta` (main.py lines 215–274) -/

/-- A value stored in the `basic` mapping (Python mixes floats and
strings there). -/
inductive BasicVal where
  | num (q : ℚ)
  | str (s : String)

/-- Rendering of a `basic` value in the reply (`f"{k}：{v}"`). -/
def basicValStr : BasicVal → String
  | .num q => pyFloatStr q
  | .str s => s

/-- The `gps` sub-record of the result. -/
structure GpsInfo where
  lat : Option ℚ
  lon : Option ℚ
  str : String

/-- The result record of `_parse_image_meta`. -/
structure MetaResult where
  basic : List (String × BasicVal)
  exif : List (List Char × String)
  gps : GpsInfo
  error : Option String

/-- The two effectful calls `_parse_image_meta` makes, modelled by their
outcomes: `os.path.getsize` and `open`+`exifread.process_file`.  An
`Except.error e` models a raised exception with `str(e) = e`.  All code
after a successful `process_file` is exception-free, so these are the only
two points where the `except` handler can be entered. -/
structure ParseEnv where
  getsize : Except String Nat
  processFile : Except String Tags

/-- The two size entries written to `basic` when `getsize` succeeds. -/
def sizeBasic (file_size : Nat) : List (String × BasicVal) :=
  [("文件大小(KB)", .num (pyRound 2 ((file_size : ℚ) / 1024))),
   ("文件大小(MB)", .num (pyRound 2 ((file_size : ℚ) / 1024 / 1024)))]

/-- The optional `basic` entries extracted from the tag collection. -/
def basicFromTags (tags : Tags) : List (String × BasicVal) :=
  (if (tagsGet tags "Image ImageWidth".toList).isSome then
    [("宽度", BasicVal.str (safe_get_exif_value (tagObj (tagsGet tags "Image ImageWidth".toList)) ++ " 像素"))]
  else []) ++
  (if (tagsGet tags "Image ImageLength".toList).isSome then
    [("高度", BasicVal.str (safe_get_exif_value (tagObj (tagsGet tags "Image ImageLength".toList)) ++ " 像素"))]
  else []) ++
  (if (tagsGet tags "Image Make".toList).isSome then
    [("设备厂商", BasicVal.str (safe_get_exif_value (tagObj (tagsGet tags "Image Make".toList))))]
  else []) ++
  (if (tagsGet tags "Image Model".toList).isSome then
    [("设备型号", BasicVal.str (safe_get_exif_value (tagObj (tagsGet tags "Image Model".toList))))]
  else []) ++
  (if (tagsGet tags "Image DateTime".toList).isSome then
    [("拍摄时间", BasicVal.str (safe_get_exif_value (tagObj (tagsGet tags "Image DateTime".toList))))]
  else [])

/-- `_parse_image_meta(image_path) -> result`.  Total: every failure of
the two effectful calls is caught by the `except` handler, which records
`str(e)[:80]` in `error` and returns the record built so far. -/
def parse_image_meta (env : ParseEnv) : MetaResult :=
  match env.getsize with
  | .error e => ⟨[], [], ⟨none, none, "无GPS信息"⟩, some (pyTake e 80)⟩
  | .ok file_size =>
    match env.processFile with
    | .error e => ⟨sizeBasic file_size, [], ⟨none, none, "无GPS信息"⟩, some (pyTake e 80)⟩
    | .ok tags =>
      let (lat, lon, gps_str) := parse_gps_exifread tags
      ⟨sizeBasic file_size ++ basicFromTags tags, exifDict tags, ⟨lat, lon, gps_str⟩, none⟩

/-! ## `_gps_to_address` (main.py lines 165–213)

The HTTP call is modelled by its outcome.  The branches of the Python
`try/except` map onto the outcome constructors: `asyncio.TimeoutError` is
caught first; every other exception (connection errors,
`raise_for_status`, `json.loads` failures) falls into the generic
`except Exception` handler, whose message depends only on `str(e)`. -/

/-- Parsed provider payload (a JSON object); `Option` fields model
`dict.get` with its default. -/
structure AmapObj where
  status : String
  infocode : Option String
  info : Option String
  formatted_address : Option String
  province : Option String
  city : Option String
  district : Option String
  street : Option String
  number : Option String

/-- Outcome of the geocoding HTTP request. -/
inductive GeoOutcome where
  /-- `asyncio.TimeoutError` raised. -/
  | timeout
  /-- A network-level exception (connection error, bad HTTP status) with
  message `str(e) = msg`. -/
  | netError (msg : String)
  /-- `json.loads` (or dict access on a malformed payload) raised, with
  message `str(e) = msg`. -/
  | parseError (msg : String)
  /-- A well-formed JSON object was obtained. -/
  | ok (obj : AmapObj)

/-- Configuration and injected HTTP capability of the resolver. -/
structure GeoEnv where
  amap_api_key : String
  response : GeoOutcome

/-- The fixed instructional string returned when no API key is set. -/
def noKeyMsg : String :=
  "未配置高德地图API Key\n请前往https://lbs.amap.com/申请Web服务API密钥，并在配置文件中设置 amap_api_key"

/-- The out-of-range coordinate message (interpolates both inputs). -/
def invalidCoordsMsg (lat lon : ℚ) : String :=
  "GPS坐标无效\n纬度范围需为[-90,90]，经度范围需为[-180,180]，当前：纬度" ++ pyFloatStr lat
    ++ "，经度" ++ pyFloatStr lon

/-- The timeout message (`except asyncio.TimeoutError`). -/
def timeoutMsg : String := "地址解析超时（高德API响应超过10秒）"

/-- The generic failure message (`except Exception as e`), embedding
`str(e)[:30]`. -/
def unknownErrMsg (e : String) : String :=
  "地址解析失败（未知错误）\n" ++ pyTake e 30 ++ "..."

/-- `_gps_to_address(lat, lon)`, returning the display string together
with whether the injected HTTP capability was invoked. -/
def gps_to_address (env : GeoEnv) (lat lon : ℚ) : String × Bool :=
  if env.amap_api_key = "" then (noKeyMsg, false)
  else if ¬(-90 ≤ lat ∧ lat ≤ 90) ∨ ¬(-180 ≤ lon ∧ lon ≤ 180) then
    (invalidCoordsMsg lat lon, false)
  else
    match env.response with
    | .timeout => (timeoutMsg, true)
    | .netError e => (unknownErrMsg e, true)
    | .parseError e => (unknownErrMsg e, true)
    | .ok obj =>
      if obj.status = "1" then
        let formatted_addr := obj.formatted_address.getD ""
        if formatted_addr ≠ "" then ("解析地址：" ++ formatted_addr, true)
        else
          let addr_parts :=
            [obj.province.getD "", obj.city.getD "", obj.district.getD "",
              obj.street.getD "", obj.number.getD ""].filter (fun p => p ≠ "")
          if addr_parts ≠ [] then ("解析地址：" ++ String.intercalate " " addr_parts, true)
          else ("解析地址：未匹配到详细地址", true)
      else
        ("地址解析失败\n错误码：" ++ obj.infocode.getD "未知" ++ "\n错误信息：" ++ obj.info.getD "未知",
          true)

/-! ## `process_metadata_analysis` (main.py lines 312–353) -/

/-- Python truthiness of an `Optional[float]` (`None` and `0.0` are
falsy). -/
def pyTruthy : Option ℚ → Bool
  | none => false
  | some q => q != 0

/-- The reply-building part of `process_metadata_analysis`: returns the
text segments of the message chain and whether `_gps_to_address` was
awaited.  `addr` is the string that call would produce (only appended when
the call happens). -/
def process_metadata_analysis (meta : MetaResult) (max_exif_show : Nat) (addr : String) :
    List String × Bool :=
  let basic_lines :=
    "【基础信息】" :: meta.basic.map (fun p => p.1 ++ "：" ++ basicValStr p.2)
  let invoked := pyTruthy meta.gps.lat && pyTruthy meta.gps.lon
  let gps_lines := ["【GPS信息】", meta.gps.str] ++ (if invoked then [addr] else [])
  let exif_lines :=
    "【Exif详细数据】" ::
      (if meta.exif ≠ [] then
        (meta.exif.take max_exif_show).filterMap
          (fun p => if p.2 ≠ "" ∧ p.2 ≠ "None" then some (String.mk p.1 ++ "：" ++ p.2) else none)
        ++ (if max_exif_show < meta.exif.length then
            ["（共" ++ String.mk (natDigits meta.exif.length) ++ "个字段，仅展示前"
              ++ String.mk (natDigits max_exif_show) ++ "个）"]
          else [])
      else ["无"])
  let chain :=
    [String.intercalate "\n" basic_lines, "\n", String.intercalate "\n" gps_lines, "\n",
      String.intercalate "\n" exif_lines]
    ++ (match meta.error with
        | some e => ["\n【解析提示】\n" ++ e]
        | none => [])
  (chain, invoked)

/-! ## Helper lemmas: rounding -/

theorem roundHalfEven_intCast (n : Int) : roundHalfEven (n : ℚ) = n := by
  unfold roundHalfEven
  rw [Int.fract_intCast, Int.floor_intCast]
  norm_num

theorem roundHalfEven_neg (q : ℚ) : roundHalfEven (-q) = -roundHalfEven q := by
  by_cases h0 : Int.fract q = 0
  · obtain ⟨n, rfl⟩ : ∃ n : ℤ, (n : ℚ) = q :=
      ⟨⌊q⌋, by have h := Int.floor_add_fract q; rw [h0, add_zero] at h; exact h⟩
    rw [show -(n : ℚ) = ((-n : ℤ) : ℚ) by push_cast; ring,
      roundHalfEven_intCast, roundHalfEven_intCast]
  · have hf0 : 0 < Int.fract q := lt_of_le_of_ne (Int.fract_nonneg q) (Ne.symm h0)
    have hf1 : Int.fract q < 1 := Int.fract_lt_one q
    have hneg : Int.fract (-q) = 1 - Int.fract q := Int.fract_neg h0
    have hfl : ⌊-q⌋ = -⌊q⌋ - 1 := by
      have h1 : ((⌊-q⌋ : ℤ) : ℚ) = -q - Int.fract (-q) := by
        rw [← Int.self_sub_fract (-q)]
      have h2 : ((⌊q⌋ : ℤ) : ℚ) = q - Int.fract q := by
        rw [← Int.self_sub_fract q]
      have h3 : ((⌊-q⌋ : ℤ) : ℚ) = ((-⌊q⌋ - 1 : ℤ) : ℚ) := by
        rw [h1, hneg]; push_cast [h2]; ring
      exact_mod_cast h3
    unfold roundHalfEven
    rw [hneg, hfl]
    split_ifs <;> first | omega | linarith

theorem pyRound_neg (n : Nat) (q : ℚ) : pyRound n (-q) = -pyRound n q := by
  unfold pyRound
  rw [show -q * 10 ^ n = -(q * 10 ^ n) by ring, roundHalfEven_neg]
  push_cast
  ring

/-! ## Helper lemmas: decimal digit strings -/

theorem natDigitsAux_eq (n : Nat) : ∀ (f : Nat) (acc : List Char), n ≤ f →
    natDigitsAux f n acc = ((Nat.digits 10 n).map digitChar).reverse ++ acc := by
  induction n using Nat.strong_induction_on with
  | _ n ih =>
    intro f acc hf
    match f with
    | 0 =>
      have hn : n = 0 := Nat.le_zero.mp hf
      subst hn
      simp [natDigitsAux]
    | f + 1 =>
      by_cases hn : n = 0
      · subst hn
        simp [natDigitsAux]
      · have hpos : 0 < n := Nat.pos_of_ne_zero hn
        have hdiv : n / 10 < n := Nat.div_lt_self hpos (by norm_num)
        rw [show natDigitsAux (f + 1) n acc
            = natDigitsAux f (n / 10) (digitChar (n % 10) :: acc) by
          simp [natDigitsAux, hn]]
        rw [ih (n / 10) hdiv f (digitChar (n % 10) :: acc) (by omega)]
        rw [Nat.digits_def' (by norm_num : (1 : Nat) < 10) hpos]
        simp

theorem digitChar_props (k : Nat) (h : k < 10) :
    (digitChar k).isDigit = true ∧ (digitChar k).isWhitespace = false ∧
      digitChar k ≠ '.' ∧ digitChar k ≠ '/' ∧ (digitChar k).toNat = 48 + k := by
  interval_cases k <;> decide

theorem natDigits_mem (n : Nat) : ∀ c ∈ natDigits n,
    c.isDigit = true ∧ c.isWhitespace = false ∧ c ≠ '.' ∧ c ≠ '/' := by
  intro c hc
  unfold natDigits at hc
  by_cases hn : n = 0
  · rw [if_pos hn] at hc
    simp at hc
    subst hc
    decide
  · rw [if_neg hn, natDigitsAux_eq n n [] le_rfl, List.append_nil, List.mem_reverse,
      List.mem_map] at hc
    obtain ⟨k, hk, rfl⟩ := hc
    have hk10 : k < 10 := Nat.digits_lt_base (by norm_num) hk
    exact ⟨(digitChar_props k hk10).1, (digitChar_props k hk10).2.1,
      (digitChar_props k hk10).2.2.1, (digitChar_props k hk10).2.2.2.1⟩

theorem natDigits_ne_nil (n : Nat) : natDigits n ≠ [] := by
  unfold natDigits
  by_cases hn : n = 0
  · simp [hn]
  · rw [if_neg hn, natDigitsAux_eq n n [] le_rfl, List.append_nil]
    simp [Nat.digits_ne_nil_iff_ne_zero.mpr hn]

theorem foldl_digitChar (l : List Nat) (h : ∀ k ∈ l, k < 10) : ∀ a : Nat,
    List.foldl (fun a c => a * 10 + (c.toNat - 48)) a ((l.map digitChar).reverse)
      = a * 10 ^ l.length + Nat.ofDigits 10 l := by
  induction l with
  | nil => intro a; simp [Nat.ofDigits]
  | cons d t ih =>
    intro a
    have hd : d < 10 := h d (List.mem_cons_self d t)
    have ht : ∀ k ∈ t, k < 10 := fun k hk => h k (List.mem_cons_of_mem d hk)
    rw [List.map_cons, List.reverse_cons, List.foldl_append, ih ht a]
    simp only [List.foldl_cons, List.foldl_nil, Nat.ofDigits_cons, List.length_cons]
    rw [(digitChar_props d hd).2.2.2.2]
    rw [pow_succ]
    ring_nf
    omega

theorem digitsToNat_natDigits (n : Nat) : digitsToNat (natDigits n) = n := by
  unfold natDigits
  by_cases hn : n = 0
  · simp [hn, digitsToNat]
  · rw [if_neg hn, natDigitsAux_eq n n [] le_rfl, List.append_nil]
    unfold digitsToNat
    rw [foldl_digitChar (Nat.digits 10 n) (fun k hk => Nat.digits_lt_base (by norm_num) hk) 0]
    simp [Nat.ofDigits_digits]

theorem splitDots_no_dot (l : List Char) (h : ∀ c ∈ l, c ≠ '.') : splitDots l = [l] := by
  induction l with
  | nil => rfl
  | cons c t ih =>
    have hc : c ≠ '.' := h c (List.mem_cons_self c t)
    have ht : ∀ x ∈ t, x ≠ '.' := fun x hx => h x (List.mem_cons_of_mem c hx)
    simp only [splitDots, List.foldr_cons] at *
    rw [ih ht, if_neg hc]

theorem dropWhile_no_ws (l : List Char) (h : ∀ c ∈ l, c.isWhitespace = false) :
    l.dropWhile Char.isWhitespace = l := by
  cases l with
  | nil => rfl
  | cons c t =>
    rw [List.dropWhile_cons, h c (List.mem_cons_self c t)]
    simp

theorem stripChars_eq_self (l : List Char) (h : ∀ c ∈ l, c.isWhitespace = false) :
    stripChars l = l := by
  unfold stripChars
  rw [dropWhile_no_ws l h,
    dropWhile_no_ws l.reverse (fun c hc => h c (List.mem_reverse.mp hc)),
    List.reverse_reverse]

theorem pyStrip_mk (l : List Char) (h : ∀ c ∈ l, c.isWhitespace = false) :
    pyStrip (String.mk l) = String.mk l := by
  unfold pyStrip
  rw [show (String.mk l).toList = l from rfl, stripChars_eq_self l h]

/-! ## Helper lemmas: component resolution (`compVal` on rendered values) -/

theorem compVal_natDigits (m : Nat) : compVal (String.mk (natDigits m)) = some ((m : ℚ)) := by
  have hmem := natDigits_mem m
  have hfil : List.filter (fun c => decide (c ≠ '.')) (natDigits m) = natDigits m :=
    List.filter_eq_self.mpr (fun a ha => by simp [(hmem a ha).2.2.1])
  have hcheck : pyDigitCheck (String.mk (natDigits m)) = true := by
    simp only [pyDigitCheck, show (String.mk (natDigits m)).toList = natDigits m from rfl,
      hfil, Bool.and_eq_true, List.all_eq_true]
    constructor
    · cases hh : natDigits m with
      | nil => exact absurd hh (natDigits_ne_nil m)
      | cons a t => rfl
    · intro c hc
      exact (hmem c hc).1
  unfold compVal
  rw [if_pos hcheck]
  unfold pyFloat
  rw [show (String.mk (natDigits m)).toList = natDigits m from rfl,
    splitDots_no_dot _ (fun c hc => (hmem c hc).2.2.1)]
  simp [digitsToNat_natDigits]

theorem intChars_not_ws (k : Int) : ∀ c ∈ intChars k, c.isWhitespace = false := by
  intro c hc
  unfold intChars at hc
  by_cases hk : k < 0
  · rw [if_pos hk] at hc
    rcases List.mem_cons.mp hc with rfl | hc'
    · decide
    · exact (natDigits_mem _ c hc').2.1
  · rw [if_neg hk] at hc
    exact (natDigits_mem _ c hc).2.1

theorem pyDigitCheck_false_of_slash (l : List Char) (h : '/' ∈ l) :
    pyDigitCheck (String.mk l) = false := by
  have hmem : '/' ∈ List.filter (fun c => decide (c ≠ '.')) l :=
    List.mem_filter.mpr ⟨h, by decide⟩
  simp only [pyDigitCheck, show (String.mk l).toList = l from rfl]
  cases hall : (List.filter (fun c => decide (c ≠ '.')) l).all (fun c => c.isDigit) with
  | false => simp [hall]
  | true =>
    have := List.all_eq_true.mp hall '/' hmem
    simp at this

/-- A rational tag component with denominator ≠ 1 renders as `"num/den"`,
fails the digit check, and resolves to `0.0`. -/
theorem compVal_ratio_slash (n d : Int) (hd : d ≠ 1) :
    compVal (safe_get_exif_value (.pyRatio n d)) = some 0 := by
  have h1 : safe_get_exif_value (.pyRatio n d) = pyStrip (pythonStr (.pyRatio n d)) := rfl
  have h2 : pythonStr (.pyRatio n d) = String.mk (intChars n ++ '/' :: intChars d) := by
    simp [pythonStr, hd]
  have hws : ∀ c ∈ intChars n ++ '/' :: intChars d, c.isWhitespace = false := by
    intro c hc
    rcases List.mem_append.mp hc with hc' | hc'
    · exact intChars_not_ws n c hc'
    · rcases List.mem_cons.mp hc' with rfl | hc''
      · decide
      · exact intChars_not_ws d c hc''
  rw [h1, h2, pyStrip_mk _ hws]
  unfold compVal
  rw [if_neg (by
    rw [pyDigitCheck_false_of_slash _ (by simp)]
    simp)]

/-- A rational tag component with denominator 1 and nonnegative numerator
renders as the plain integer and resolves to that integer. -/
theorem compVal_ratio_den1 (n : Int) (hn : 0 ≤ n) :
    compVal (safe_get_exif_value (.pyRatio n 1)) = some ((n : ℚ)) := by
  have h1 : safe_get_exif_value (.pyRatio n 1) = pyStrip (pythonStr (.pyRatio n 1)) := rfl
  have h2 : pythonStr (.pyRatio n 1) = String.mk (intChars n) := by
    simp [pythonStr]
  have h3 : intChars n = natDigits n.natAbs := by
    unfold intChars
    rw [if_neg (by omega)]
  rw [h1, h2, h3, pyStrip_mk _ (fun c hc => (natDigits_mem _ c hc).2.1), compVal_natDigits]
  congr 1
  rw [Int.cast_natAbs, abs_of_nonneg (by exact_mod_cast hn)]

/-! ## Helper lemmas: the Exif dictionary loop -/

theorem startsWithGPS_replaceSpaces (l : List Char) :
    startsWithGPS (replaceSpaces l) = startsWithGPS l := by
  match l with
  | [] => rfl
  | [a] => rfl
  | [a, b] => rfl
  | a :: b :: c :: t =>
    simp only [replaceSpaces, List.map_cons, startsWithGPS]
    by_cases ha : a = ' ' <;> by_cases hb : b = ' ' <;> by_cases hc : c = ' ' <;>
      simp [ha, hb, hc,
        show (('_' : Char) == 'G') = false from by decide,
        show ((' ' : Char) == 'G') = false from by decide,
        show (('_' : Char) == 'P') = false from by decide,
        show ((' ' : Char) == 'P') = false from by decide,
        show (('_' : Char) == 'S') = false from by decide,
        show ((' ' : Char) == 'S') = false from by decide]

/-- The invariant every entry of `exif_dict` satisfies. -/
def exifInv (p : List Char × String) : Prop :=
  startsWithGPS p.1 = false ∧ p.2 ≠ "" ∧ p.2 ≠ "None" ∧ p.2.length < 200

theorem exifFold_inv (tags : Tags) : ∀ (d : List (List Char × String)),
    (∀ p ∈ d, exifInv p) →
    ∀ p ∈ List.foldl (fun d q => exifStep d q.1 q.2) d tags, exifInv p := by
  induction tags with
  | nil => intro d hd p hp; exact hd p (by simpa using hp)
  | cons q rest ih =>
    intro d hd p hp
    rw [List.foldl_cons] at hp
    refine ih _ ?_ p hp
    intro r hr
    simp only [exifStep] at hr
    by_cases hgps : startsWithGPS q.1 = true
    · rw [if_pos hgps] at hr; exact hd r hr
    · rw [if_neg hgps] at hr
      by_cases hcond : safe_get_exif_value q.2 ≠ "" ∧ safe_get_exif_value q.2 ≠ "None" ∧
          (safe_get_exif_value q.2).length < 200
      · rw [if_pos hcond] at hr
        have hnew : exifInv (replaceSpaces q.1, safe_get_exif_value q.2) := by
          refine ⟨?_, hcond.1, hcond.2.1, hcond.2.2⟩
          rw [startsWithGPS_replaceSpaces]
          exact Bool.not_eq_true _ ▸ hgps
        unfold dictInsert at hr
        by_cases hany : (List.any d fun p => p.1 == replaceSpaces q.1) = true
        · rw [if_pos hany] at hr
          rcases List.mem_map.mp hr with ⟨p0, hp0, rfl⟩
          by_cases hbe : (p0.1 == replaceSpaces q.1) = true
          · rw [if_pos hbe]; exact hnew
          · rw [if_neg hbe]; exact hd p0 hp0
        · rw [if_neg hany] at hr
          rcases List.mem_append.mp hr with hr' | hr'
          · exact hd r hr'
          · rcases List.mem_singleton.mp hr' with rfl
            exact hnew
      · rw [if_neg hcond] at hr; exact hd r hr

/-- Which entry (if any) the loop body stores for a given tag. -/
def exifSel (p : List Char × PyVal) : Option (List Char × String) :=
  if startsWithGPS p.1 = false ∧ safe_get_exif_value p.2 ≠ "" ∧
      safe_get_exif_value p.2 ≠ "None" ∧ (safe_get_exif_value p.2).length < 200 then
    some (replaceSpaces p.1, safe_get_exif_value p.2)
  else none

theorem exifFold_filterMap (tags : Tags) : ∀ (d : List (List Char × String)),
    (∀ p ∈ tags, replaceSpaces p.1 ∉ d.map Prod.fst) →
    (tags.map (fun p => replaceSpaces p.1)).Nodup →
    List.foldl (fun d q => exifStep d q.1 q.2) d tags = d ++ tags.filterMap exifSel := by
  induction tags with
  | nil => intro d _ _; simp
  | cons q rest ih =>
    intro d hdisj hnd
    rw [List.foldl_cons, List.filterMap_cons]
    rw [List.map_cons] at hnd
    have hnd' := List.nodup_cons.mp hnd
    by_cases hgps : startsWithGPS q.1 = true
    · have hstep : exifStep d q.1 q.2 = d := by
        simp only [exifStep]; rw [if_pos hgps]
      have hsel : exifSel q = none := by
        simp only [exifSel]
        rw [if_neg (by simp [hgps])]
      rw [hstep, hsel, ih d (fun p hp => hdisj p (List.mem_cons_of_mem _ hp)) hnd'.2]
    · have hgps' : startsWithGPS q.1 = false := Bool.not_eq_true _ ▸ hgps
      by_cases hcond : safe_get_exif_value q.2 ≠ "" ∧ safe_get_exif_value q.2 ≠ "None" ∧
          (safe_get_exif_value q.2).length < 200
      · have hkd : replaceSpaces q.1 ∉ d.map Prod.fst := hdisj q (List.mem_cons_self q rest)
        have hstep : exifStep d q.1 q.2
            = d ++ [(replaceSpaces q.1, safe_get_exif_value q.2)] := by
          simp only [exifStep]
          rw [if_neg hgps, if_pos hcond]
          unfold dictInsert
          rw [if_neg]
          intro hany
          rcases List.any_eq_true.mp hany with ⟨p0, hp0, hbe⟩
          exact hkd (List.mem_map.mpr ⟨p0, hp0, eq_of_beq hbe⟩)
        have hsel : exifSel q = some (replaceSpaces q.1, safe_get_exif_value q.2) := by
          simp only [exifSel]
          rw [if_pos ⟨hgps', hcond.1, hcond.2.1, hcond.2.2⟩]
        rw [hstep, hsel,
          ih (d ++ [(replaceSpaces q.1, safe_get_exif_value q.2)]) ?_ hnd'.2]
        · simp
        · intro p hp
          rw [List.map_append, List.mem_append]
          rintro (hin | hin)
          · exact hdisj p (List.mem_cons_of_mem _ hp) hin
          · rcases List.mem_singleton.mp hin with heq
            exact hnd'.1 (List.mem_map.mpr ⟨p, hp, heq⟩)
      · have hstep : exifStep d q.1 q.2 = d := by
          simp only [exifStep]
          rw [if_neg hgps, if_neg hcond]
        have hsel : exifSel q = none := by
          simp only [exifSel]
          rw [if_neg (by tauto)]
        rw [hstep, hsel, ih d (fun p hp => hdisj p (List.mem_cons_of_mem _ hp)) hnd'.2]

/-! ## Helper lemmas: resolver display strings -/

theorem pyTake_length_le (s : String) (n : Nat) : (pyTake s n).length ≤ n := by
  unfold pyTake
  rw [show (String.mk (s.toList.take n)).length = (s.toList.take n).length from rfl,
    List.length_take]
  exact min_le_left _ _

theorem timeoutMsg_ne_unknownErrMsg (e : String) : timeoutMsg ≠ unknownErrMsg e := by
  intro h
  have hd : timeoutMsg.data = "地址解析失败（未知错误）\n".data ++ (pyTake e 30 ++ "...").data := by
    rw [h]; rfl
  have h4 : timeoutMsg.data[4]?
      = ("地址解析失败（未知错误）\n".data ++ (pyTake e 30 ++ "...").data)[4]? := by rw [hd]
  rw [List.getElem?_append_left (by decide)] at h4
  exact absurd h4 (by decide)

/-! ## Shared facts about the converter -/

/-- When all three components resolve, `_convert_exif_gps` computes the
rounded DMS formula, negated for the `S`/`W` hemispheres (the code negates
before rounding; half-to-even rounding is odd, so this equals negating the
rounded value). -/
theorem convert_exif_gps_formula (a b c : PyVal) (rest : List PyVal) (ref : String)
    (deg min_v sec_v : ℚ)
    (h1 : compVal (safe_get_exif_value a) = some deg)
    (h2 : compVal (safe_get_exif_value b) = some min_v)
    (h3 : compVal (safe_get_exif_value c) = some sec_v) :
    convert_exif_gps (.pyTag (.pyList (a :: b :: c :: rest))) ref
      = (if ref = "S" ∨ ref = "W" then -(pyRound 6 (deg + min_v / 60 + sec_v / 3600))
        else pyRound 6 (deg + min_v / 60 + sec_v / 3600)) := by
  simp only [convert_exif_gps, h1, h2, h3]
  by_cases href : ref = "S" ∨ ref = "W"
  · rw [if_pos href, if_pos href, pyRound_neg]
  · rw [if_neg href, if_neg href]

theorem pyRound_zero (n : Nat) : pyRound n 0 = 0 := by
  unfold pyRound
  rw [zero_mul, show (0 : ℚ) = ((0 : ℤ) : ℚ) by norm_num, roundHalfEven_intCast]
  simp

/-! ## Claim theorems -/

/-- C1: for every degree/minute/second triple whose components resolve to
floats and every hemisphere reference `ref`, the GPS converter returns
`round(deg + min/60 + sec/3600, 6)`, negated exactly when `ref` is `"S"` or
`"W"`; in particular `(40,26,46)` with `"N"` yields `40.446111` and
`(79,58,56)` with `"W"` yields `-79.982222`. -/
theorem c1_gps_converter_formula :
    (∀ (a b c : PyVal) (rest : List PyVal) (ref : String) (deg min_v sec_v : ℚ),
      compVal (safe_get_exif_value a) = some deg →
      compVal (safe_get_exif_value b) = some min_v →
      compVal (safe_get_exif_value c) = some sec_v →
      convert_exif_gps (.pyTag (.pyList (a :: b :: c :: rest))) ref
        = (if ref = "S" ∨ ref = "W" then -(pyRound 6 (deg + min_v / 60 + sec_v / 3600))
          else pyRound 6 (deg + min_v / 60 + sec_v / 3600))) ∧
    convert_exif_gps (.pyTag (.pyList [.pyRatio 40 1, .pyRatio 26 1, .pyRatio 46 1])) "N"
      = 40446111 / 1000000 ∧
    convert_exif_gps (.pyTag (.pyList [.pyRatio 79 1, .pyRatio 58 1, .pyRatio 56 1])) "W"
      = -(79982222 / 1000000) := by
  refine ⟨fun a b c rest ref deg min_v sec_v h1 h2 h3 =>
    convert_exif_gps_formula a b c rest ref deg min_v sec_v h1 h2 h3, ?_, ?_⟩
  · rw [convert_exif_gps_formula _ _ _ _ _ ((40 : ℤ) : ℚ) ((26 : ℤ) : ℚ) ((46 : ℤ) : ℚ)
      (compVal_ratio_den1 40 (by norm_num)) (compVal_ratio_den1 26 (by norm_num))
      (compVal_ratio_den1 46 (by norm_num))]
    rw [if_neg (by simp)]
    unfold pyRound roundHalfEven
    norm_num [Int.fract]
  · rw [convert_exif_gps_formula _ _ _ _ _ ((79 : ℤ) : ℚ) ((58 : ℤ) : ℚ) ((56 : ℤ) : ℚ)
      (compVal_ratio_den1 79 (by norm_num)) (compVal_ratio_den1 58 (by norm_num))
      (compVal_ratio_den1 56 (by norm_num))]
    rw [if_pos (Or.inr rfl)]
    rw [neg_inj]
    unfold pyRound roundHalfEven
    norm_num [Int.fract]

/-- C1 witness: the formula instantiated at the `(40,26,46)/"N"` triple,
each hypothesis discharged by evaluation. -/
theorem c1_gps_converter_formula_witness :
    convert_exif_gps (.pyTag (.pyList [.pyRatio 40 1, .pyRatio 26 1, .pyRatio 46 1])) "N"
      = (if ("N" : String) = "S" ∨ ("N" : String) = "W" then
          -(pyRound 6 ((40 : ℚ) + 26 / 60 + 46 / 3600))
        else pyRound 6 ((40 : ℚ) + 26 / 60 + 46 / 3600)) :=
  c1_gps_converter_formula.1 _ _ _ [] "N" 40 26 46 (by decide) (by decide) (by decide)

/-- C5 counterexample: a rational component `93/2` is *not* resolved to
`numerator/denominator = 46.5`; its string rendering `"93/2"` fails the
digit check and the whole conversion yields `0.0` instead of
`round(46.5, 6) = 46.5`. -/
theorem c5_counterexample :
    convert_exif_gps (.pyTag (.pyList [.pyRatio 93 2, .pyRatio 0 1, .pyRatio 0 1])) "N" = 0
      ∧ (0 : ℚ) ≠ 93 / 2 := by
  constructor
  · rw [convert_exif_gps_formula _ _ _ _ _ 0 ((0 : ℤ) : ℚ) ((0 : ℤ) : ℚ)
      (compVal_ratio_slash 93 2 (by norm_num)) (compVal_ratio_den1 0 (by norm_num))
      (compVal_ratio_den1 0 (by norm_num))]
    rw [if_neg (by simp)]
    norm_num [pyRound_zero]
  · norm_num

/-- C5 (amended): each component is resolved by *stringifying* it and
parsing the string as a float only when it consists of digits and dots; a
rational pair with denominator ≠ 1 renders as `"num/den"`, fails that
check, and resolves to `0.0` — no numerator/denominator division is ever
performed (hence no zero-denominator guard exists either); a rational pair
with denominator 1 renders as the plain integer and resolves to it; a
`float()` parse error anywhere makes the whole conversion return `0.0`
without raising. -/
theorem c5_component_resolution :
    (∀ n d : ℤ, d ≠ 1 → compVal (safe_get_exif_value (.pyRatio n d)) = some 0) ∧
    (∀ n : ℤ, 0 ≤ n → compVal (safe_get_exif_value (.pyRatio n 1)) = some ((n : ℚ))) ∧
    (∀ (a b c : PyVal) (rest : List PyVal) (ref : String),
      (compVal (safe_get_exif_value a) = none ∨ compVal (safe_get_exif_value b) = none ∨
        compVal (safe_get_exif_value c) = none) →
      convert_exif_gps (.pyTag (.pyList (a :: b :: c :: rest))) ref = 0) := by
  refine ⟨fun n d hd => compVal_ratio_slash n d hd, fun n hn => compVal_ratio_den1 n hn, ?_⟩
  intro a b c rest ref h
  rcases h with h | h | h
  · simp [convert_exif_gps, h]
  · cases h1 : compVal (safe_get_exif_value a) <;> simp [convert_exif_gps, h1, h]
  · cases h1 : compVal (safe_get_exif_value a) <;>
      cases h2 : compVal (safe_get_exif_value b) <;>
      simp [convert_exif_gps, h1, h2, h]

/-- C5 witness: concrete instances of all three parts (the `"1.2.3"`
component passes the digit check but makes `float` raise, so the whole
conversion collapses to `0.0`). -/
theorem c5_component_resolution_witness :
    compVal (safe_get_exif_value (.pyRatio 93 2)) = some 0 ∧
    compVal (safe_get_exif_value (.pyRatio 26 1)) = some ((26 : ℤ) : ℚ) ∧
    convert_exif_gps (.pyTag (.pyList [.pyStr "1.2.3", .pyStr "0", .pyStr "0"])) "N" = 0 :=
  ⟨c5_component_resolution.1 93 2 (by decide),
   c5_component_resolution.2.1 26 (by decide),
   c5_component_resolution.2.2 _ _ _ [] "N" (Or.inl (by decide))⟩

/-! ## Shared facts about the byte decoder -/

theorem utf8Go_ascii (l : List Char) : ∀ f : Nat, (∀ c ∈ l, c.toNat < 128) →
    l.length ≤ f → utf8Go f (l.map Char.toNat) = l := by
  induction l with
  | nil => intro f _ _; cases f <;> rfl
  | cons c t ih =>
    intro f hascii hf
    match f with
    | f' + 1 =>
      have hc : c.toNat < 128 := hascii c (List.mem_cons_self c t)
      rw [List.map_cons]
      rw [show utf8Go (f' + 1) (c.toNat :: t.map Char.toNat)
          = Char.ofNat c.toNat :: utf8Go f' (t.map Char.toNat) by
        simp only [utf8Go]
        rw [if_pos (by exact_mod_cast hc)]]
      rw [Char.ofNat_toNat,
        ih f' (fun x hx => hascii x (List.mem_cons_of_mem c hx)) (by simpa using Nat.lt_succ_iff.mp (by simpa using Nat.lt_succ_of_le (by simpa using hf)))]

theorem utf8Go_invalid (bs : List Nat) : ∀ f : Nat, (∀ b ∈ bs, 0xF5 ≤ b) →
    utf8Go f bs = [] := by
  induction bs with
  | nil => intro f _; cases f <;> rfl
  | cons b t ih =>
    intro f hb
    match f with
    | 0 => rfl
    | f' + 1 =>
      have h1 : b ≥ 0xF5 := hb b (List.mem_cons_self b t)
      simp only [utf8Go]
      rw [if_neg (by omega), if_neg (by simp; omega), if_neg (by simp; omega),
        if_neg (by simp; omega)]
      exact ih f' (fun x hx => hb x (List.mem_cons_of_mem b hx))

/-- C4 counterexample: the byte `0xFF` is not valid UTF-8 and contains no
usable character, yet the decoder returns the *empty string*, not a
placeholder stating the byte length.  (`bytes.decode('utf-8',
errors='ignore')` never raises, so the GBK fallback and the placeholder
branch of `_safe_get_exif_value` are unreachable.) -/
theorem c4_counterexample :
    safe_get_exif_value (.pyBytes [255]) = "" ∧
    safe_get_exif_value (.pyBytes [255]) ≠ "[二进制数据] 长度: 1 bytes" := by
  constructor <;> decide

/-- C4 (amended): for every byte-sequence tag value the decoder returns
the UTF-8 decode with invalid sequences ignored, stripped of surrounding
whitespace — this decode never raises, so the GBK fallback and the
byte-length placeholder are dead code and are never returned; ASCII byte
content round-trips, and wholly invalid byte content degrades to the empty
string (not a placeholder). -/
theorem c4_bytes_decoding :
    (∀ bs : List Nat, safe_get_exif_value (.pyBytes bs) = pyStrip (utf8DecodeIgnore bs)) ∧
    (∀ l : List Char, (∀ c ∈ l, c.toNat < 128) →
      safe_get_exif_value (.pyBytes (l.map Char.toNat)) = pyStrip (String.mk l)) ∧
    (∀ bs : List Nat, (∀ b ∈ bs, 0xF5 ≤ b) → safe_get_exif_value (.pyBytes bs) = "") := by
  refine ⟨fun bs => rfl, ?_, ?_⟩
  · intro l hl
    show pyStrip (utf8DecodeIgnore (l.map Char.toNat)) = pyStrip (String.mk l)
    unfold utf8DecodeIgnore
    rw [List.length_map, utf8Go_ascii l l.length hl le_rfl]
  · intro bs hbs
    show pyStrip (utf8DecodeIgnore bs) = ""
    unfold utf8DecodeIgnore
    rw [utf8Go_invalid bs bs.length hbs]
    rfl

/-- C4 witness: the amended statement applied to the ASCII bytes of
`"Canon"` and to the invalid bytes `[255, 254]`. -/
theorem c4_bytes_decoding_witness :
    safe_get_exif_value (.pyBytes ("Canon".toList.map Char.toNat)) = pyStrip (String.mk "Canon".toList) ∧
    safe_get_exif_value (.pyBytes [255, 254]) = "" :=
  ⟨c4_bytes_decoding.2.1 "Canon".toList (by decide),
   c4_bytes_decoding.2.2 [255, 254] (by decide)⟩

/-- C3: GPS is absent (both coordinates `None`, display `"无GPS信息"`)
unless all four of latitude triple / latitude ref / longitude triple /
longitude ref are present as tags with `.values`; when all four are
present and both conversions are exactly `0.0`, the result carries the
distinct display string `"GPS坐标无效（值为0）"`, distinguishable from the
missing-tags display. -/
theorem c3_gps_extraction :
    (∀ tags : Tags,
      ¬(hasValuesTag (tagsGet tags "GPS GPSLatitude".toList) = true ∧
        hasValuesTag (tagsGet tags "GPS GPSLatitudeRef".toList) = true ∧
        hasValuesTag (tagsGet tags "GPS GPSLongitude".toList) = true ∧
        hasValuesTag (tagsGet tags "GPS GPSLongitudeRef".toList) = true) →
      parse_gps_exifread tags = (none, none, "无GPS信息")) ∧
    (∀ tags : Tags,
      hasValuesTag (tagsGet tags "GPS GPSLatitude".toList) = true →
      hasValuesTag (tagsGet tags "GPS GPSLatitudeRef".toList) = true →
      hasValuesTag (tagsGet tags "GPS GPSLongitude".toList) = true →
      hasValuesTag (tagsGet tags "GPS GPSLongitudeRef".toList) = true →
      convert_exif_gps (tagObj (tagsGet tags "GPS GPSLatitude".toList))
        (safe_get_exif_value (tagValues (tagsGet tags "GPS GPSLatitudeRef".toList))) = 0 →
      convert_exif_gps (tagObj (tagsGet tags "GPS GPSLongitude".toList))
        (safe_get_exif_value (tagValues (tagsGet tags "GPS GPSLongitudeRef".toList))) = 0 →
      parse_gps_exifread tags = (some 0, some 0, "GPS坐标无效（值为0）")) ∧
    ("GPS坐标无效（值为0）" : String) ≠ "无GPS信息" := by
  refine ⟨?_, ?_, by decide⟩
  · intro tags h
    simp only [parse_gps_exifread]
    rw [if_neg (by simp only [Bool.and_eq_true]; tauto)]
  · intro tags h1 h2 h3 h4 hlat hlon
    simp only [parse_gps_exifread]
    rw [if_pos (by simp only [Bool.and_eq_true]; exact ⟨⟨⟨h1, h2⟩, h3⟩, h4⟩)]
    rw [hlat, hlon]
    simp

/-- A tag collection with a (0,0) GPS fix, used to witness C3. -/
def gpsZeroTags : Tags :=
  [("GPS GPSLatitude".toList, .pyTag (.pyList [.pyRatio 0 1, .pyRatio 0 1, .pyRatio 0 1])),
   ("GPS GPSLatitudeRef".toList, .pyTag (.pyStr "N")),
   ("GPS GPSLongitude".toList, .pyTag (.pyList [.pyRatio 0 1, .pyRatio 0 1, .pyRatio 0 1])),
   ("GPS GPSLongitudeRef".toList, .pyTag (.pyStr "E"))]

/-- C3 witness: the zero-fix collection takes the `"GPS坐标无效（值为0）"`
branch. -/
theorem c3_gps_extraction_witness :
    parse_gps_exifread gpsZeroTags = (some 0, some 0, "GPS坐标无效（值为0）") :=
  c3_gps_extraction.2.1 gpsZeroTags rfl rfl rfl rfl
    (by
      rw [show tagObj (tagsGet gpsZeroTags "GPS GPSLatitude".toList)
          = PyVal.pyTag (.pyList [.pyRatio 0 1, .pyRatio 0 1, .pyRatio 0 1]) from rfl,
        show safe_get_exif_value (tagValues (tagsGet gpsZeroTags "GPS GPSLatitudeRef".toList))
          = "N" from rfl,
        convert_exif_gps_formula _ _ _ _ _ 0 0 0 (by decide) (by decide) (by decide),
        if_neg (by decide)]
      simp [pyRound_zero])
    (by
      rw [show tagObj (tagsGet gpsZeroTags "GPS GPSLongitude".toList)
          = PyVal.pyTag (.pyList [.pyRatio 0 1, .pyRatio 0 1, .pyRatio 0 1]) from rfl,
        show safe_get_exif_value (tagValues (tagsGet gpsZeroTags "GPS GPSLongitudeRef".toList))
          = "E" from rfl,
        convert_exif_gps_formula _ _ _ _ _ 0 0 0 (by decide) (by decide) (by decide),
        if_neg (by decide)]
      simp [pyRound_zero])

set_option maxRecDepth 4000 in
/-- C6 counterexample: a non-GPS tag whose decoded value has *exactly*
200 characters is non-empty, is not `"None"`, and does not exceed 200
characters, yet the loop drops it (the code keeps only values with
`len < 200`). -/
theorem c6_counterexample :
    (safe_get_exif_value (.pyStr (String.mk (List.replicate 200 'a'))) ≠ "" ∧
     safe_get_exif_value (.pyStr (String.mk (List.replicate 200 'a'))) ≠ "None" ∧
     (safe_get_exif_value (.pyStr (String.mk (List.replicate 200 'a')))).length ≤ 200) ∧
    exifDict [("Image Foo".toList, .pyStr (String.mk (List.replicate 200 'a')))] = [] := by
  exact ⟨⟨by decide, by decide, by decide⟩, by decide⟩

/-- C6 (amended): every entry of the exif mapping is a non-GPS-prefixed
key with a non-empty value that is not `"None"` and has *strictly fewer
than* 200 characters; conversely (when the underscored tag names are
pairwise distinct, as they are for a Python dict of Exif tag names) a
non-GPS tag is stored, under its space-to-underscore key, exactly when its
decoded value meets those conditions. -/
theorem c6_exif_mapping :
    (∀ (tags : Tags) (k : List Char) (v : String), (k, v) ∈ exifDict tags →
      startsWithGPS k = false ∧ v ≠ "" ∧ v ≠ "None" ∧ v.length < 200) ∧
    (∀ tags : Tags, (tags.map (fun p => replaceSpaces p.1)).Nodup →
      ∀ (tag : List Char) (value : PyVal), (tag, value) ∈ tags → startsWithGPS tag = false →
        ((replaceSpaces tag, safe_get_exif_value value) ∈ exifDict tags ↔
          (safe_get_exif_value value ≠ "" ∧ safe_get_exif_value value ≠ "None" ∧
            (safe_get_exif_value value).length < 200))) := by
  have hinv : ∀ (tags : Tags) (k : List Char) (v : String), (k, v) ∈ exifDict tags →
      startsWithGPS k = false ∧ v ≠ "" ∧ v ≠ "None" ∧ v.length < 200 := by
    intro tags k v h
    exact exifFold_inv tags [] (by simp) (k, v) h
  refine ⟨hinv, ?_⟩
  intro tags hnd tag value htv hgps
  constructor
  · intro hmem
    exact (hinv tags _ _ hmem).2
  · intro hconds
    unfold exifDict
    rw [exifFold_filterMap tags [] (by simp) hnd, List.nil_append]
    exact List.mem_filterMap.mpr ⟨(tag, value), htv, by
      simp only [exifSel]
      rw [if_pos ⟨hgps, hconds.1, hconds.2.1, hconds.2.2⟩]⟩

/-- C6 witness: a `Make` tag with decoded value `"Canon"` is stored under
the underscored key. -/
theorem c6_exif_mapping_witness :
    (replaceSpaces "Image Make".toList, safe_get_exif_value (.pyStr "Canon"))
      ∈ exifDict [("Image Make".toList, .pyStr "Canon")] :=
  (c6_exif_mapping.2 [("Image Make".toList, .pyStr "Canon")] (by decide)
    "Image Make".toList (.pyStr "Canon") (List.mem_singleton.mpr rfl) (by decide)).mpr
    ⟨by decide, by decide, by decide⟩

/-- C2: the metadata assembler is total (in this embedding it is a total
function: the Python `try/except` catches every exception of its two
effectful calls); a failure at either call is captured as a short
diagnostic (`str(e)[:80]`, hence ≤ 80 characters) in the `error` field,
and the record built up to the failure point is returned — empty `exif`
mapping, absent gps with the `"无GPS信息"` display, and the size entries
exactly when the byte length was obtainable. -/
theorem c2_assembler_never_raises :
    (∀ (env : ParseEnv) (e : String), env.getsize = .error e →
      parse_image_meta env = ⟨[], [], ⟨none, none, "无GPS信息"⟩, some (pyTake e 80)⟩) ∧
    (∀ (env : ParseEnv) (sz : Nat) (e : String), env.getsize = .ok sz →
      env.processFile = .error e →
      parse_image_meta env
        = ⟨sizeBasic sz, [], ⟨none, none, "无GPS信息"⟩, some (pyTake e 80)⟩) ∧
    (∀ (env : ParseEnv) (s : String), (parse_image_meta env).error = some s →
      s.length ≤ 80) := by
  refine ⟨?_, ?_, ?_⟩
  · intro env e h
    unfold parse_image_meta
    rw [h]
  · intro env sz e h1 h2
    unfold parse_image_meta
    rw [h1, h2]
  · intro env s hs
    rcases h1 : env.getsize with e | sz
    · rw [show parse_image_meta env
          = ⟨[], [], ⟨none, none, "无GPS信息"⟩, some (pyTake e 80)⟩ by
        simp only [parse_image_meta, h1]] at hs
      simp at hs
      rw [← hs]
      exact pyTake_length_le e 80
    · rcases h2 : env.processFile with e | tags
      · rw [show parse_image_meta env
            = ⟨sizeBasic sz, [], ⟨none, none, "无GPS信息"⟩, some (pyTake e 80)⟩ by
          simp only [parse_image_meta, h1, h2]] at hs
        simp at hs
        rw [← hs]
        exact pyTake_length_le e 80
      · rcases h3 : parse_gps_exifread tags with ⟨la, lo, st⟩
        rw [show parse_image_meta env
            = ⟨sizeBasic sz ++ basicFromTags tags, exifDict tags, ⟨la, lo, st⟩, none⟩ by
          simp only [parse_image_meta, h1, h2, h3]] at hs
        simp at hs

/-- C2 witness: size obtained, image unparseable. -/
theorem c2_assembler_never_raises_witness :
    parse_image_meta ⟨.ok 2048, .error "cannot identify image file"⟩
      = ⟨sizeBasic 2048, [], ⟨none, none, "无GPS信息"⟩,
          some (pyTake "cannot identify image file" 80)⟩ :=
  c2_assembler_never_raises.2.1 ⟨.ok 2048, .error "cannot identify image file"⟩ 2048
    "cannot identify image file" rfl rfl

/-- Range-violation branch of `_gps_to_address` (shared helper). -/
theorem gps_to_address_out_of_range (env : GeoEnv) (lat lon : ℚ)
    (hk : env.amap_api_key ≠ "")
    (hr : ¬((-90 ≤ lat ∧ lat ≤ 90) ∧ (-180 ≤ lon ∧ lon ≤ 180))) :
    gps_to_address env lat lon = (invalidCoordsMsg lat lon, false) := by
  unfold gps_to_address
  rw [if_neg hk, if_pos (by tauto)]

/-- C7: with no API credential configured, the resolver returns the fixed
instructional string and never invokes the injected geocoding capability,
for every coordinate pair. -/
theorem c7_no_credential :
    ∀ (env : GeoEnv) (lat lon : ℚ), env.amap_api_key = "" →
      gps_to_address env lat lon = (noKeyMsg, false) := by
  intro env lat lon h
  unfold gps_to_address
  rw [if_pos h]

/-- C7 witness. -/
theorem c7_no_credential_witness :
    gps_to_address ⟨"", .timeout⟩ 0 0 = (noKeyMsg, false) :=
  c7_no_credential ⟨"", .timeout⟩ 0 0 rfl

/-- C8: with a credential configured (the credential check precedes range
validation in the code), any latitude outside `[-90,90]` or longitude
outside `[-180,180]` yields the fixed invalid-coordinates string, naming
both values, without invoking the geocoding capability; in particular at
`(91, 0)` and `(0, 181)`. -/
theorem c8_range_validation :
    (∀ (env : GeoEnv) (lat lon : ℚ), env.amap_api_key ≠ "" →
      ¬((-90 ≤ lat ∧ lat ≤ 90) ∧ (-180 ≤ lon ∧ lon ≤ 180)) →
      gps_to_address env lat lon = (invalidCoordsMsg lat lon, false)) ∧
    (∀ env : GeoEnv, env.amap_api_key ≠ "" →
      gps_to_address env 91 0 = (invalidCoordsMsg 91 0, false) ∧
      gps_to_address env 0 181 = (invalidCoordsMsg 0 181, false)) :=
  ⟨gps_to_address_out_of_range,
   fun env hk =>
    ⟨gps_to_address_out_of_range env 91 0 hk (by norm_num),
     gps_to_address_out_of_range env 0 181 hk (by norm_num)⟩⟩

/-- C8 witness. -/
theorem c8_range_validation_witness :
    gps_to_address ⟨"k", .timeout⟩ 91 0 = (invalidCoordsMsg 91 0, false) ∧
    gps_to_address ⟨"k", .timeout⟩ 0 181 = (invalidCoordsMsg 0 181, false) :=
  c8_range_validation.2 ⟨"k", .timeout⟩ (by decide)

/-- C9 counterexample: a network-level failure and a malformed-response
(JSON parse) failure with the same exception text produce the *same*
display string — both are caught by the same generic `except Exception`
handler, so the two failure classes are not distinguishable, contrary to
the claim. -/
theorem c9_counterexample :
    gps_to_address ⟨"k", .netError "Expecting value"⟩ 10 10
      = gps_to_address ⟨"k", .parseError "Expecting value"⟩ 10 10 := by
  have hr : ¬(¬((-90 : ℚ) ≤ 10 ∧ (10 : ℚ) ≤ 90) ∨ ¬((-180 : ℚ) ≤ 10 ∧ (10 : ℚ) ≤ 180)) := by
    norm_num
  unfold gps_to_address
  rw [if_neg (by decide), if_neg hr]

/-- C9 (amended): a timeout yields its own fixed display string; network
failures and malformed provider responses both yield the single template
`"地址解析失败（未知错误）\n" + str(e)[:30] + "..."`, distinguished only by
the embedded exception text (not by failure class); the timeout string
never coincides with that template; the embedded raw error text is capped
at 30 characters; and (as the total embedding shows) no failure
propagates as an exception past the resolver. -/
theorem c9_failure_strings :
    (∀ (env : GeoEnv) (lat lon : ℚ), env.amap_api_key ≠ "" →
      ((-90 ≤ lat ∧ lat ≤ 90) ∧ (-180 ≤ lon ∧ lon ≤ 180)) →
      (env.response = .timeout → gps_to_address env lat lon = (timeoutMsg, true)) ∧
      (∀ e, env.response = .netError e →
        gps_to_address env lat lon = (unknownErrMsg e, true)) ∧
      (∀ e, env.response = .parseError e →
        gps_to_address env lat lon = (unknownErrMsg e, true))) ∧
    (∀ e, timeoutMsg ≠ unknownErrMsg e) ∧
    (∀ e, (pyTake e 30).length ≤ 30) := by
  refine ⟨?_, timeoutMsg_ne_unknownErrMsg, fun e => pyTake_length_le e 30⟩
  intro env lat lon hk hr
  refine ⟨?_, ?_, ?_⟩
  · intro h
    unfold gps_to_address
    rw [if_neg hk, if_neg (by tauto), h]
  · intro e h
    unfold gps_to_address
    rw [if_neg hk, if_neg (by tauto), h]
  · intro e h
    unfold gps_to_address
    rw [if_neg hk, if_neg (by tauto), h]

/-- C9 witness: the three failure outcomes at a concrete in-range
coordinate. -/
theorem c9_failure_strings_witness :
    gps_to_address ⟨"k", .timeout⟩ 10 10 = (timeoutMsg, true) ∧
    gps_to_address ⟨"k", .netError "boom"⟩ 10 10 = (unknownErrMsg "boom", true) ∧
    gps_to_address ⟨"k", .parseError "boom"⟩ 10 10 = (unknownErrMsg "boom", true) :=
  ⟨(c9_failure_strings.1 ⟨"k", .timeout⟩ 10 10 (by decide)
      ⟨⟨by decide, by decide⟩, ⟨by decide, by decide⟩⟩).1 rfl,
   (c9_failure_strings.1 ⟨"k", .netError "boom"⟩ 10 10 (by decide)
      ⟨⟨by decide, by decide⟩, ⟨by decide, by decide⟩⟩).2.1 "boom" rfl,
   (c9_failure_strings.1 ⟨"k", .parseError "boom"⟩ 10 10 (by decide)
      ⟨⟨by decide, by decide⟩, ⟨by decide, by decide⟩⟩).2.2 "boom" rfl⟩

theorem pyTruthy_iff (o : Option ℚ) : pyTruthy o = true ↔ ∃ q, o = some q ∧ q ≠ 0 := by
  cases o with
  | none => simp [pyTruthy]
  | some q => simp [pyTruthy, bne_iff_ne]

/-- C10: the reply builder awaits the address lookup exactly when both
`gps.lat` and `gps.lon` are present and nonzero (Python truthiness of
`Optional[float]`); in particular a record with one coordinate exactly
`0.0` — e.g. a point on the equator with a valid longitude — never
triggers the lookup. -/
theorem c10_lookup_condition :
    (∀ (meta : MetaResult) (max_exif_show : Nat) (addr : String),
      (process_metadata_analysis meta max_exif_show addr).2 = true ↔
        ((∃ la, meta.gps.lat = some la ∧ la ≠ 0) ∧ (∃ lo, meta.gps.lon = some lo ∧ lo ≠ 0))) ∧
    (process_metadata_analysis ⟨[], [], ⟨some 0, some 50, "s"⟩, none⟩ 20 "addr").2 = false := by
  constructor
  · intro meta max_exif_show addr
    show (pyTruthy meta.gps.lat && pyTruthy meta.gps.lon) = true ↔ _
    rw [Bool.and_eq_true, pyTruthy_iff, pyTruthy_iff]
  · decide

end ImgAnalysis
